import Mathlib

/-!
Verification of `src/GTE/Mathematics/IntrLine2Line2.h` (Geometric Tools,
line-line intersection queries in 2D).

The C++ code is generic over a scalar type `T` (floating point in practice).
We embed it over `ℝ`, the exact-arithmetic reading of the generic scalar.
The vector type `Vector2<T>` and its helpers `DotPerp` and `Normalize` come
from `Mathematics/Vector2.h`, which is not part of this repository snapshot;
they are modelled from the spec's glossary and section 4.1.

`std::numeric_limits<T>::max()` has no counterpart for an abstract exact
scalar; the full query therefore takes it as an explicit parameter `maxT`,
and `std::numeric_limits<int32_t>::max()` is the concrete constant
`int32Max = 2147483647`.
-/

namespace GTE

/-- Modelled from the spec: the 2D vector/point type `Vector2<T>` from
`Mathematics/Vector2.h` (absent from the snapshot), a pair of scalar
coordinates. -/
@[ext]
structure Vector2 where
  x : ℝ
  y : ℝ

namespace Vector2

instance : Zero Vector2 := ⟨⟨0, 0⟩⟩

instance : Add Vector2 := ⟨fun u v => ⟨u.x + v.x, u.y + v.y⟩⟩

instance : Sub Vector2 := ⟨fun u v => ⟨u.x - v.x, u.y - v.y⟩⟩

instance : SMul ℝ Vector2 := ⟨fun c v => ⟨c * v.x, c * v.y⟩⟩

theorem zero_def : (0 : Vector2) = ⟨0, 0⟩ := rfl

theorem add_def (u v : Vector2) : u + v = ⟨u.x + v.x, u.y + v.y⟩ := rfl

theorem sub_def (u v : Vector2) : u - v = ⟨u.x - v.x, u.y - v.y⟩ := rfl

theorem smul_def (c : ℝ) (v : Vector2) : c • v = ⟨c * v.x, c * v.y⟩ := rfl

end Vector2

/-- Modelled from the spec: `DotPerp(A, B) = A.x*B.y - A.y*B.x`
(spec glossary; `Mathematics/Vector2.h` is absent from the snapshot). -/
def DotPerp (u v : Vector2) : ℝ :=
  u.x * v.y - u.y * v.x

/-- Modelled from the spec: the Euclidean length used by `Normalize`
(`Mathematics/Vector2.h` is absent from the snapshot). -/
noncomputable def Length (v : Vector2) : ℝ :=
  Real.sqrt (v.x * v.x + v.y * v.y)

/-- Modelled from the spec: `Normalize` scales its argument to a unit vector
(spec section 4.1).  On a zero-length input the spec leaves the result
unspecified ("fails silently / yields an undefined direction"); the actual
library sets the vector to zero, which is what we model. -/
noncomputable def Normalize (v : Vector2) : Vector2 :=
  if 0 < Length v then (1 / Length v) • v else 0

/-- `Line2<T>` from `Mathematics/Line.h` (absent from the snapshot): an
origin point and a direction vector, as described in spec section 3. -/
structure Line2 where
  origin : Vector2
  direction : Vector2

/-- `std::numeric_limits<int32_t>::max()`, the sentinel count for
coincident lines. -/
def int32Max : ℤ := 2147483647

/-- Result of the test-intersection query
(`TIQuery<T, Line2<T>, Line2<T>>::Result`). -/
structure TIResult where
  intersect : Bool
  numIntersections : ℤ

/-- `TIQuery<T, Line2<T>, Line2<T>>::operator()` from
`src/GTE/Mathematics/IntrLine2Line2.h`, lines 46-86. -/
noncomputable def TIQuery (line0 line1 : Line2) : TIResult :=
  let diff := line1.origin - line0.origin
  let D0DotPerpD1 := DotPerp line0.direction line1.direction
  if D0DotPerpD1 ≠ 0 then
    -- The lines are not parallel.
    { intersect := true, numIntersections := 1 }
  else
    -- The lines are parallel.
    let diffN := Normalize diff
    let diffNDotPerpD1 := DotPerp diffN line1.direction
    if diffNDotPerpD1 ≠ 0 then
      -- The lines are parallel but distinct.
      { intersect := false, numIntersections := 0 }
    else
      -- The lines are the same.
      { intersect := true, numIntersections := int32Max }

/-- Result of the find-intersection query
(`FIQuery<T, Line2<T>, Line2<T>>::Result`); the default constructor's
values appear in the branches that leave fields untouched. -/
structure FIResult where
  intersect : Bool
  numIntersections : ℤ
  line0Parameter : ℝ × ℝ
  line1Parameter : ℝ × ℝ
  point : Vector2

/-- `FIQuery<T, Line2<T>, Line2<T>>::operator()` from
`src/GTE/Mathematics/IntrLine2Line2.h`, lines 134-184.  `maxT` stands for
`std::numeric_limits<T>::max()`. -/
noncomputable def FIQuery (maxT : ℝ) (line0 line1 : Line2) : FIResult :=
  let Q := line1.origin - line0.origin
  let D0DotPerpD1 := DotPerp line0.direction line1.direction
  if D0DotPerpD1 ≠ 0 then
    -- The lines are not parallel.
    let QDotPerpD0 := DotPerp Q line0.direction
    let QDotPerpD1 := DotPerp Q line1.direction
    let s0 := QDotPerpD1 / D0DotPerpD1
    let s1 := QDotPerpD0 / D0DotPerpD1
    { intersect := true
      numIntersections := 1
      line0Parameter := (s0, s0)
      line1Parameter := (s1, s1)
      point := line0.origin + s0 • line0.direction }
  else
    -- The lines are parallel.
    let QDotPerpD1 := DotPerp Q line1.direction
    if |QDotPerpD1| ≠ 0 then
      -- The lines are parallel but distinct; all other fields keep the
      -- default constructor's values.
      { intersect := false
        numIntersections := 0
        line0Parameter := (0, 0)
        line1Parameter := (0, 0)
        point := 0 }
    else
      -- The lines are the same; `point` keeps the default value.
      { intersect := true
        numIntersections := int32Max
        line0Parameter := (-maxT, maxT)
        line1Parameter := (-maxT, maxT)
        point := 0 }

/-! ### Basic lemmas about the vector operations -/

theorem DotPerp_smul_left (c : ℝ) (u v : Vector2) :
    DotPerp (c • u) v = c * DotPerp u v := by
  simp only [DotPerp, Vector2.smul_def]; ring

theorem DotPerp_smul_right (c : ℝ) (u v : Vector2) :
    DotPerp u (c • v) = c * DotPerp u v := by
  simp only [DotPerp, Vector2.smul_def]; ring

theorem DotPerp_zero_left (v : Vector2) : DotPerp 0 v = 0 := by
  simp [DotPerp, Vector2.zero_def]

theorem Length_nonneg (v : Vector2) : 0 ≤ Length v :=
  Real.sqrt_nonneg _

theorem div_smul_smul_cancel (c : ℝ) (hc : c ≠ 0) (a : ℝ) (v : Vector2) :
    (a / c) • c • v = a • v := by
  ext
  · simp only [Vector2.smul_def]
    field_simp
    ring
  · simp only [Vector2.smul_def]
    field_simp
    ring

theorem Length_eq_zero_iff (v : Vector2) : Length v = 0 ↔ v = 0 := by
  constructor
  · intro h
    have hle : v.x * v.x + v.y * v.y ≤ 0 := Real.sqrt_eq_zero'.mp h
    have hx : v.x * v.x = 0 := le_antisymm (by nlinarith [mul_self_nonneg v.y]) (mul_self_nonneg _)
    have hy : v.y * v.y = 0 := le_antisymm (by nlinarith [mul_self_nonneg v.x]) (mul_self_nonneg _)
    ext
    · exact mul_self_eq_zero.mp hx
    · exact mul_self_eq_zero.mp hy
  · intro h
    simp [h, Length, Vector2.zero_def]

/-- Normalization does not change whether the perpendicular-dot product
against a fixed vector is zero (spec section 9: the two branches use
"mathematically equivalent zero-tests"). -/
theorem DotPerp_Normalize_eq_zero_iff (v w : Vector2) :
    DotPerp (Normalize v) w = 0 ↔ DotPerp v w = 0 := by
  unfold Normalize
  by_cases hp : 0 < Length v
  · rw [if_pos hp, DotPerp_smul_left]
    have hne : Length v ≠ 0 := ne_of_gt hp
    simp [mul_eq_zero, hne]
  · rw [if_neg hp]
    have h0 : Length v = 0 := le_antisymm (not_lt.mp hp) (Length_nonneg v)
    rw [Length_eq_zero_iff] at h0
    rw [h0]

/-! ### Branch-unfolding lemmas for the two queries -/

theorem TIQuery_of_not_parallel (line0 line1 : Line2)
    (h : DotPerp line0.direction line1.direction ≠ 0) :
    TIQuery line0 line1 = { intersect := true, numIntersections := 1 } := by
  simp only [TIQuery]
  rw [if_pos h]

theorem TIQuery_of_parallel_distinct (line0 line1 : Line2)
    (h : DotPerp line0.direction line1.direction = 0)
    (h2 : DotPerp (Normalize (line1.origin - line0.origin)) line1.direction ≠ 0) :
    TIQuery line0 line1 = { intersect := false, numIntersections := 0 } := by
  simp only [TIQuery]
  rw [if_neg (not_not_intro h), if_pos h2]

theorem TIQuery_of_parallel_same (line0 line1 : Line2)
    (h : DotPerp line0.direction line1.direction = 0)
    (h2 : DotPerp (Normalize (line1.origin - line0.origin)) line1.direction = 0) :
    TIQuery line0 line1 = { intersect := true, numIntersections := int32Max } := by
  simp only [TIQuery]
  rw [if_neg (not_not_intro h), if_neg (not_not_intro h2)]

theorem FIQuery_of_not_parallel (maxT : ℝ) (line0 line1 : Line2)
    (h : DotPerp line0.direction line1.direction ≠ 0) :
    FIQuery maxT line0 line1 =
      { intersect := true
        numIntersections := 1
        line0Parameter :=
          (DotPerp (line1.origin - line0.origin) line1.direction /
              DotPerp line0.direction line1.direction,
            DotPerp (line1.origin - line0.origin) line1.direction /
              DotPerp line0.direction line1.direction)
        line1Parameter :=
          (DotPerp (line1.origin - line0.origin) line0.direction /
              DotPerp line0.direction line1.direction,
            DotPerp (line1.origin - line0.origin) line0.direction /
              DotPerp line0.direction line1.direction)
        point := line0.origin +
          (DotPerp (line1.origin - line0.origin) line1.direction /
              DotPerp line0.direction line1.direction) • line0.direction } := by
  simp only [FIQuery]
  rw [if_pos h]

theorem FIQuery_of_parallel_distinct (maxT : ℝ) (line0 line1 : Line2)
    (h : DotPerp line0.direction line1.direction = 0)
    (h2 : DotPerp (line1.origin - line0.origin) line1.direction ≠ 0) :
    FIQuery maxT line0 line1 =
      { intersect := false
        numIntersections := 0
        line0Parameter := (0, 0)
        line1Parameter := (0, 0)
        point := 0 } := by
  simp only [FIQuery]
  rw [if_neg (not_not_intro h), if_pos (abs_ne_zero.mpr h2)]

theorem FIQuery_of_parallel_same (maxT : ℝ) (line0 line1 : Line2)
    (h : DotPerp line0.direction line1.direction = 0)
    (h2 : DotPerp (line1.origin - line0.origin) line1.direction = 0) :
    FIQuery maxT line0 line1 =
      { intersect := true
        numIntersections := int32Max
        line0Parameter := (-maxT, maxT)
        line1Parameter := (-maxT, maxT)
        point := 0 } := by
  simp only [FIQuery]
  rw [if_neg (not_not_intro h), if_neg (not_not_intro (abs_eq_zero.mpr h2))]

/-! ### Concrete lines used by the witnesses (spec section 8 scenarios) -/

/-- The horizontal line through the origin. -/
def lineA : Line2 := ⟨⟨0, 0⟩, ⟨1, 0⟩⟩

/-- The vertical line through `(0,1)` (spec scenario A's second line). -/
def lineB : Line2 := ⟨⟨0, 1⟩, ⟨0, 1⟩⟩

/-- The horizontal line through `(0,1)`, parallel to and disjoint from
`lineA` (spec scenario B's second line). -/
def lineC : Line2 := ⟨⟨0, 1⟩, ⟨1, 0⟩⟩

/-- The diagonal line through the origin with direction `(1,1)`. -/
def lineE : Line2 := ⟨⟨0, 0⟩, ⟨1, 1⟩⟩

/-- The same geometric line as `lineE`, described with a different origin
and a scaled direction (spec scenario C's second line). -/
def lineD : Line2 := ⟨⟨2, 2⟩, ⟨2, 2⟩⟩

/-! ### The claims -/

/-- C1: for every pair of lines whose directions have a non-zero
perpendicular-dot product `D = DotPerp(direction0, direction1)`,
`FindIntersection` returns `intersect = true`, `numIntersections = 1`,
`line0Parameter = (s0, s0)` and `line1Parameter = (s1, s1)` where
`s0 = DotPerp(Q, direction1)/D` and `s1 = DotPerp(Q, direction0)/D` with
`Q = origin1 - origin0`, and `point = origin0 + s0*direction0`. -/
theorem claim1_find_unique_intersection (maxT : ℝ) (line0 line1 : Line2)
    (h : DotPerp line0.direction line1.direction ≠ 0) :
    FIQuery maxT line0 line1 =
      { intersect := true
        numIntersections := 1
        line0Parameter :=
          (DotPerp (line1.origin - line0.origin) line1.direction /
              DotPerp line0.direction line1.direction,
            DotPerp (line1.origin - line0.origin) line1.direction /
              DotPerp line0.direction line1.direction)
        line1Parameter :=
          (DotPerp (line1.origin - line0.origin) line0.direction /
              DotPerp line0.direction line1.direction,
            DotPerp (line1.origin - line0.origin) line0.direction /
              DotPerp line0.direction line1.direction)
        point := line0.origin +
          (DotPerp (line1.origin - line0.origin) line1.direction /
              DotPerp line0.direction line1.direction) • line0.direction } :=
  FIQuery_of_not_parallel maxT line0 line1 h

/-- Witness for C1 at spec scenario A: `lineA` meets `lineB` at the origin
with `s0 = 0` and `s1 = -1`. -/
theorem claim1_witness :
    DotPerp lineA.direction lineB.direction ≠ 0 ∧
    FIQuery 9 lineA lineB =
      { intersect := true
        numIntersections := 1
        line0Parameter :=
          (DotPerp (lineB.origin - lineA.origin) lineB.direction /
              DotPerp lineA.direction lineB.direction,
            DotPerp (lineB.origin - lineA.origin) lineB.direction /
              DotPerp lineA.direction lineB.direction)
        line1Parameter :=
          (DotPerp (lineB.origin - lineA.origin) lineA.direction /
              DotPerp lineA.direction lineB.direction,
            DotPerp (lineB.origin - lineA.origin) lineA.direction /
              DotPerp lineA.direction lineB.direction)
        point := lineA.origin +
          (DotPerp (lineB.origin - lineA.origin) lineB.direction /
              DotPerp lineA.direction lineB.direction) • lineA.direction } :=
  ⟨by norm_num [DotPerp, lineA, lineB],
   claim1_find_unique_intersection 9 lineA lineB (by norm_num [DotPerp, lineA, lineB])⟩

/-- C2: for every pair of lines with linearly independent directions, the
point computed by `FindIntersection` lies on both lines exactly:
`point = origin0 + s0*direction0 = origin1 + s1*direction1`. -/
theorem claim2_point_on_both_lines (maxT : ℝ) (line0 line1 : Line2)
    (h : DotPerp line0.direction line1.direction ≠ 0) :
    (FIQuery maxT line0 line1).point =
      line0.origin +
        (DotPerp (line1.origin - line0.origin) line1.direction /
            DotPerp line0.direction line1.direction) • line0.direction ∧
    (FIQuery maxT line0 line1).point =
      line1.origin +
        (DotPerp (line1.origin - line0.origin) line0.direction /
            DotPerp line0.direction line1.direction) • line1.direction := by
  rw [FIQuery_of_not_parallel maxT line0 line1 h]
  refine ⟨rfl, ?_⟩
  simp only [DotPerp] at h
  ext
  · simp only [DotPerp, Vector2.add_def, Vector2.sub_def, Vector2.smul_def]
    field_simp
    ring
  · simp only [DotPerp, Vector2.add_def, Vector2.sub_def, Vector2.smul_def]
    field_simp
    ring

/-- Witness for C2 at spec scenario A. -/
theorem claim2_witness :
    DotPerp lineA.direction lineB.direction ≠ 0 ∧
    ((FIQuery 9 lineA lineB).point =
      lineA.origin +
        (DotPerp (lineB.origin - lineA.origin) lineB.direction /
            DotPerp lineA.direction lineB.direction) • lineA.direction ∧
    (FIQuery 9 lineA lineB).point =
      lineB.origin +
        (DotPerp (lineB.origin - lineA.origin) lineA.direction /
            DotPerp lineA.direction lineB.direction) • lineB.direction) :=
  ⟨by norm_num [DotPerp, lineA, lineB],
   claim2_point_on_both_lines 9 lineA lineB (by norm_num [DotPerp, lineA, lineB])⟩

/-- C3: for every pair of input lines, `TestIntersection` and
`FindIntersection` return the same `intersect` flag and the same
`numIntersections` count. -/
theorem claim3_classifications_agree (maxT : ℝ) (line0 line1 : Line2) :
    (TIQuery line0 line1).intersect = (FIQuery maxT line0 line1).intersect ∧
    (TIQuery line0 line1).numIntersections =
      (FIQuery maxT line0 line1).numIntersections := by
  by_cases hD : DotPerp line0.direction line1.direction = 0
  · by_cases hQ : DotPerp (line1.origin - line0.origin) line1.direction = 0
    · rw [TIQuery_of_parallel_same line0 line1 hD
          ((DotPerp_Normalize_eq_zero_iff _ _).mpr hQ),
        FIQuery_of_parallel_same maxT line0 line1 hD hQ]
      exact ⟨rfl, rfl⟩
    · rw [TIQuery_of_parallel_distinct line0 line1 hD
          (fun hz => hQ ((DotPerp_Normalize_eq_zero_iff _ _).mp hz)),
        FIQuery_of_parallel_distinct maxT line0 line1 hD hQ]
      exact ⟨rfl, rfl⟩
  · rw [TIQuery_of_not_parallel line0 line1 hD,
      FIQuery_of_not_parallel maxT line0 line1 hD]
    exact ⟨rfl, rfl⟩

/-- C4: for parallel directions and distinct origins, `TestIntersection`
normalizes `Q` and tests `DotPerp(normalizedQ, direction1)`: non-zero gives
`intersect = false`, `numIntersections = 0`; zero gives `intersect = true`
and the maximum-int32 sentinel count. -/
theorem claim4_test_parallel_branch (line0 line1 : Line2)
    (h : DotPerp line0.direction line1.direction = 0)
    (hQ : line1.origin - line0.origin ≠ 0) :
    (DotPerp (Normalize (line1.origin - line0.origin)) line1.direction ≠ 0 →
      TIQuery line0 line1 = { intersect := false, numIntersections := 0 }) ∧
    (DotPerp (Normalize (line1.origin - line0.origin)) line1.direction = 0 →
      TIQuery line0 line1 =
        { intersect := true, numIntersections := int32Max }) :=
  ⟨fun h2 => TIQuery_of_parallel_distinct line0 line1 h h2,
   fun h2 => TIQuery_of_parallel_same line0 line1 h h2⟩

/-- Witness for C4 at spec scenario B: `lineA` and `lineC` are parallel
with distinct origins. -/
theorem claim4_witness :
    DotPerp lineA.direction lineC.direction = 0 ∧
    lineC.origin - lineA.origin ≠ 0 ∧
    ((DotPerp (Normalize (lineC.origin - lineA.origin)) lineC.direction ≠ 0 →
      TIQuery lineA lineC = { intersect := false, numIntersections := 0 }) ∧
    (DotPerp (Normalize (lineC.origin - lineA.origin)) lineC.direction = 0 →
      TIQuery lineA lineC =
        { intersect := true, numIntersections := int32Max })) :=
  ⟨by norm_num [DotPerp, lineA, lineC],
   by simp [lineA, lineC, Vector2.sub_def, Vector2.zero_def, Vector2.ext_iff],
   claim4_test_parallel_branch lineA lineC
     (by norm_num [DotPerp, lineA, lineC])
     (by simp [lineA, lineC, Vector2.sub_def, Vector2.zero_def, Vector2.ext_iff])⟩

/-- C5: for coincident lines (`DotPerp(direction0, direction1) = 0` and
`DotPerp(Q, direction1) = 0`), `FindIntersection` returns
`intersect = true`, the maximum-int32 count, and both parameter pairs equal
to `(-maxT, maxT)`, the most-negative and most-positive representable
values of `T`. -/
theorem claim5_find_coincident (maxT : ℝ) (line0 line1 : Line2)
    (h : DotPerp line0.direction line1.direction = 0)
    (h2 : DotPerp (line1.origin - line0.origin) line1.direction = 0) :
    (FIQuery maxT line0 line1).intersect = true ∧
    (FIQuery maxT line0 line1).numIntersections = int32Max ∧
    (FIQuery maxT line0 line1).line0Parameter = (-maxT, maxT) ∧
    (FIQuery maxT line0 line1).line1Parameter = (-maxT, maxT) := by
  rw [FIQuery_of_parallel_same maxT line0 line1 h h2]
  exact ⟨rfl, rfl, rfl, rfl⟩

/-- Witness for C5 at spec scenario C: `lineE` and `lineD` describe the
same diagonal line. -/
theorem claim5_witness :
    DotPerp lineE.direction lineD.direction = 0 ∧
    DotPerp (lineD.origin - lineE.origin) lineD.direction = 0 ∧
    ((FIQuery 9 lineE lineD).intersect = true ∧
    (FIQuery 9 lineE lineD).numIntersections = int32Max ∧
    (FIQuery 9 lineE lineD).line0Parameter = (-9, 9) ∧
    (FIQuery 9 lineE lineD).line1Parameter = (-9, 9)) :=
  ⟨by norm_num [DotPerp, lineE, lineD],
   by norm_num [DotPerp, lineE, lineD, Vector2.sub_def],
   claim5_find_coincident 9 lineE lineD
     (by norm_num [DotPerp, lineE, lineD])
     (by norm_num [DotPerp, lineE, lineD, Vector2.sub_def])⟩

/-- C8: for parallel, disjoint lines (`DotPerp(direction0, direction1) = 0`
and `DotPerp(Q, direction1) ≠ 0`), `FindIntersection` returns
`line0Parameter = (0, 0)`, `line1Parameter = (0, 0)` and `point = (0, 0)`:
these fields keep their default-constructed values. -/
theorem claim8_find_parallel_defaults (maxT : ℝ) (line0 line1 : Line2)
    (h : DotPerp line0.direction line1.direction = 0)
    (h2 : DotPerp (line1.origin - line0.origin) line1.direction ≠ 0) :
    (FIQuery maxT line0 line1).line0Parameter = (0, 0) ∧
    (FIQuery maxT line0 line1).line1Parameter = (0, 0) ∧
    (FIQuery maxT line0 line1).point = ⟨0, 0⟩ := by
  rw [FIQuery_of_parallel_distinct maxT line0 line1 h h2]
  exact ⟨rfl, rfl, rfl⟩

/-- Witness for C8 at spec scenario B: `lineA` and `lineC` are parallel
and disjoint. -/
theorem claim8_witness :
    DotPerp lineA.direction lineC.direction = 0 ∧
    DotPerp (lineC.origin - lineA.origin) lineC.direction ≠ 0 ∧
    ((FIQuery 9 lineA lineC).line0Parameter = (0, 0) ∧
    (FIQuery 9 lineA lineC).line1Parameter = (0, 0) ∧
    (FIQuery 9 lineA lineC).point = ⟨0, 0⟩) :=
  ⟨by norm_num [DotPerp, lineA, lineC],
   by norm_num [DotPerp, lineA, lineC, Vector2.sub_def],
   claim8_find_parallel_defaults 9 lineA lineC
     (by norm_num [DotPerp, lineA, lineC])
     (by norm_num [DotPerp, lineA, lineC, Vector2.sub_def])⟩

/-- C6: for lines with linearly independent directions, swapping the two
inputs of `FindIntersection` preserves `intersect` and `numIntersections`,
swaps `line0Parameter` and `line1Parameter`, and yields the same
intersection point exactly. -/
theorem claim6_swap_symmetry (maxT : ℝ) (line0 line1 : Line2)
    (h : DotPerp line0.direction line1.direction ≠ 0) :
    (FIQuery maxT line1 line0).intersect = (FIQuery maxT line0 line1).intersect ∧
    (FIQuery maxT line1 line0).numIntersections =
      (FIQuery maxT line0 line1).numIntersections ∧
    (FIQuery maxT line1 line0).line0Parameter =
      (FIQuery maxT line0 line1).line1Parameter ∧
    (FIQuery maxT line1 line0).line1Parameter =
      (FIQuery maxT line0 line1).line0Parameter ∧
    (FIQuery maxT line1 line0).point = (FIQuery maxT line0 line1).point := by
  have h' : DotPerp line1.direction line0.direction ≠ 0 := by
    simp only [DotPerp] at h ⊢
    intro hc
    apply h
    linarith
  have key0 : DotPerp (line0.origin - line1.origin) line0.direction /
      DotPerp line1.direction line0.direction =
      DotPerp (line1.origin - line0.origin) line0.direction /
      DotPerp line0.direction line1.direction := by
    rw [div_eq_div_iff h' h]
    simp only [DotPerp, Vector2.sub_def]
    ring
  have key1 : DotPerp (line0.origin - line1.origin) line1.direction /
      DotPerp line1.direction line0.direction =
      DotPerp (line1.origin - line0.origin) line1.direction /
      DotPerp line0.direction line1.direction := by
    rw [div_eq_div_iff h' h]
    simp only [DotPerp, Vector2.sub_def]
    ring
  rw [FIQuery_of_not_parallel maxT line1 line0 h',
    FIQuery_of_not_parallel maxT line0 line1 h]
  have hexp := h
  simp only [DotPerp] at hexp
  refine ⟨rfl, rfl, ?_, ?_, ?_⟩
  · rw [key0]
  · rw [key1]
  · show line1.origin + _ • line1.direction = line0.origin + _ • line0.direction
    rw [key0]
    ext
    · simp only [DotPerp, Vector2.add_def, Vector2.sub_def, Vector2.smul_def]
      field_simp
      ring
    · simp only [DotPerp, Vector2.add_def, Vector2.sub_def, Vector2.smul_def]
      field_simp
      ring

/-- Witness for C6 at spec scenario A. -/
theorem claim6_witness :
    DotPerp lineA.direction lineB.direction ≠ 0 ∧
    ((FIQuery 9 lineB lineA).intersect = (FIQuery 9 lineA lineB).intersect ∧
    (FIQuery 9 lineB lineA).numIntersections =
      (FIQuery 9 lineA lineB).numIntersections ∧
    (FIQuery 9 lineB lineA).line0Parameter =
      (FIQuery 9 lineA lineB).line1Parameter ∧
    (FIQuery 9 lineB lineA).line1Parameter =
      (FIQuery 9 lineA lineB).line0Parameter ∧
    (FIQuery 9 lineB lineA).point = (FIQuery 9 lineA lineB).point) :=
  ⟨by norm_num [DotPerp, lineA, lineB],
   claim6_swap_symmetry 9 lineA lineB (by norm_num [DotPerp, lineA, lineB])⟩

/-- Division checked against a zero divisor: `none` signals an attempted
division by zero. -/
noncomputable def checkedDiv (a b : ℝ) : Option ℝ :=
  if b = 0 then none else some (a / b)

/-- `FIQuery` with every division of its body routed through `checkedDiv`,
so that any division by zero would surface as `none`. -/
noncomputable def FIQueryChecked (maxT : ℝ) (line0 line1 : Line2) :
    Option FIResult :=
  let Q := line1.origin - line0.origin
  let D0DotPerpD1 := DotPerp line0.direction line1.direction
  if D0DotPerpD1 ≠ 0 then
    let QDotPerpD0 := DotPerp Q line0.direction
    let QDotPerpD1 := DotPerp Q line1.direction
    (checkedDiv QDotPerpD1 D0DotPerpD1).bind fun s0 =>
      (checkedDiv QDotPerpD0 D0DotPerpD1).bind fun s1 =>
        some
          { intersect := true
            numIntersections := 1
            line0Parameter := (s0, s0)
            line1Parameter := (s1, s1)
            point := line0.origin + s0 • line0.direction }
  else
    let QDotPerpD1 := DotPerp Q line1.direction
    if |QDotPerpD1| ≠ 0 then
      some
        { intersect := false
          numIntersections := 0
          line0Parameter := (0, 0)
          line1Parameter := (0, 0)
          point := 0 }
    else
      some
        { intersect := true
          numIntersections := int32Max
          line0Parameter := (-maxT, maxT)
          line1Parameter := (-maxT, maxT)
          point := 0 }

/-- C9: the divisions computing `s0` and `s1` occur only in the branch
where the divisor `D = DotPerp(direction0, direction1)` has already tested
non-zero, so for every input — including zero-length directions — the full
query performs no division by zero: the checked variant never returns
`none` and agrees with `FIQuery`. -/
theorem claim9_no_division_by_zero (maxT : ℝ) (line0 line1 : Line2) :
    FIQueryChecked maxT line0 line1 = some (FIQuery maxT line0 line1) := by
  by_cases hD : DotPerp line0.direction line1.direction = 0
  · simp only [FIQueryChecked, FIQuery]
    rw [if_neg (not_not_intro hD), if_neg (not_not_intro hD), apply_ite Option.some]
  · simp only [FIQueryChecked, FIQuery]
    rw [if_pos hD, if_pos hD]
    simp only [checkedDiv, if_neg hD, Option.some_bind]

/-- C10: for every pair of input lines, both queries satisfy the invariant
that `intersect` holds iff `numIntersections` is non-zero, and
`numIntersections` is one of `0`, `1`, or the maximum int32. -/
theorem claim10_result_invariant (maxT : ℝ) (line0 line1 : Line2) :
    ((TIQuery line0 line1).intersect = true ↔
      (TIQuery line0 line1).numIntersections ≠ 0) ∧
    ((TIQuery line0 line1).numIntersections = 0 ∨
      (TIQuery line0 line1).numIntersections = 1 ∨
      (TIQuery line0 line1).numIntersections = int32Max) ∧
    ((FIQuery maxT line0 line1).intersect = true ↔
      (FIQuery maxT line0 line1).numIntersections ≠ 0) ∧
    ((FIQuery maxT line0 line1).numIntersections = 0 ∨
      (FIQuery maxT line0 line1).numIntersections = 1 ∨
      (FIQuery maxT line0 line1).numIntersections = int32Max) := by
  by_cases hD : DotPerp line0.direction line1.direction = 0
  · by_cases hQ : DotPerp (line1.origin - line0.origin) line1.direction = 0
    · rw [TIQuery_of_parallel_same line0 line1 hD
          ((DotPerp_Normalize_eq_zero_iff _ _).mpr hQ),
        FIQuery_of_parallel_same maxT line0 line1 hD hQ]
      refine ⟨by norm_num [int32Max], Or.inr (Or.inr rfl),
        by norm_num [int32Max], Or.inr (Or.inr rfl)⟩
    · rw [TIQuery_of_parallel_distinct line0 line1 hD
          (fun hz => hQ ((DotPerp_Normalize_eq_zero_iff _ _).mp hz)),
        FIQuery_of_parallel_distinct maxT line0 line1 hD hQ]
      exact ⟨by simp, Or.inl rfl, by simp, Or.inl rfl⟩
  · rw [TIQuery_of_not_parallel line0 line1 hD,
      FIQuery_of_not_parallel maxT line0 line1 hD]
    exact ⟨by norm_num, Or.inr (Or.inl rfl), by norm_num, Or.inr (Or.inl rfl)⟩

/-- C7: for every pair of lines and every non-zero scalar `c`, replacing a
line's direction by `c` times that direction leaves the classification
(`intersect`, `numIntersections`) of both queries unchanged and, in the
unique-intersection case, leaves the computed point unchanged, while the
parameter of the rescaled line is divided by `c`. -/
theorem claim7_direction_scaling (maxT c : ℝ) (line0 line1 : Line2)
    (hc : c ≠ 0) :
    TIQuery line0 ⟨line1.origin, c • line1.direction⟩ = TIQuery line0 line1 ∧
    TIQuery ⟨line0.origin, c • line0.direction⟩ line1 = TIQuery line0 line1 ∧
    ((FIQuery maxT line0 ⟨line1.origin, c • line1.direction⟩).intersect =
        (FIQuery maxT line0 line1).intersect ∧
      (FIQuery maxT line0 ⟨line1.origin, c • line1.direction⟩).numIntersections =
        (FIQuery maxT line0 line1).numIntersections) ∧
    ((FIQuery maxT ⟨line0.origin, c • line0.direction⟩ line1).intersect =
        (FIQuery maxT line0 line1).intersect ∧
      (FIQuery maxT ⟨line0.origin, c • line0.direction⟩ line1).numIntersections =
        (FIQuery maxT line0 line1).numIntersections) ∧
    (DotPerp line0.direction line1.direction ≠ 0 →
      ((FIQuery maxT line0 ⟨line1.origin, c • line1.direction⟩).point =
          (FIQuery maxT line0 line1).point ∧
        (FIQuery maxT line0 ⟨line1.origin, c • line1.direction⟩).line1Parameter =
          ((FIQuery maxT line0 line1).line1Parameter.1 / c,
            (FIQuery maxT line0 line1).line1Parameter.2 / c)) ∧
      ((FIQuery maxT ⟨line0.origin, c • line0.direction⟩ line1).point =
          (FIQuery maxT line0 line1).point ∧
        (FIQuery maxT ⟨line0.origin, c • line0.direction⟩ line1).line0Parameter =
          ((FIQuery maxT line0 line1).line0Parameter.1 / c,
            (FIQuery maxT line0 line1).line0Parameter.2 / c))) := by
  by_cases hD : DotPerp line0.direction line1.direction = 0
  · have hD1 : DotPerp line0.direction (c • line1.direction) = 0 := by
      rw [DotPerp_smul_right, hD, mul_zero]
    have hD0 : DotPerp (c • line0.direction) line1.direction = 0 := by
      rw [DotPerp_smul_left, hD, mul_zero]
    by_cases hQ : DotPerp (line1.origin - line0.origin) line1.direction = 0
    · have hQN : DotPerp (Normalize (line1.origin - line0.origin))
          line1.direction = 0 := (DotPerp_Normalize_eq_zero_iff _ _).mpr hQ
      have hQ1 : DotPerp (line1.origin - line0.origin) (c • line1.direction) = 0 := by
        rw [DotPerp_smul_right, hQ, mul_zero]
      have hQN1 : DotPerp (Normalize (line1.origin - line0.origin))
          (c • line1.direction) = 0 := by
        rw [DotPerp_smul_right, hQN, mul_zero]
      rw [TIQuery_of_parallel_same line0 ⟨line1.origin, c • line1.direction⟩ hD1 hQN1,
        TIQuery_of_parallel_same ⟨line0.origin, c • line0.direction⟩ line1 hD0 hQN,
        TIQuery_of_parallel_same line0 line1 hD hQN,
        FIQuery_of_parallel_same maxT line0 ⟨line1.origin, c • line1.direction⟩ hD1 hQ1,
        FIQuery_of_parallel_same maxT ⟨line0.origin, c • line0.direction⟩ line1 hD0 hQ,
        FIQuery_of_parallel_same maxT line0 line1 hD hQ]
      exact ⟨rfl, rfl, ⟨rfl, rfl⟩, ⟨rfl, rfl⟩, fun hne => absurd hD hne⟩
    · have hQN : DotPerp (Normalize (line1.origin - line0.origin))
          line1.direction ≠ 0 :=
        fun hz => hQ ((DotPerp_Normalize_eq_zero_iff _ _).mp hz)
      have hQ1 : DotPerp (line1.origin - line0.origin) (c • line1.direction) ≠ 0 := by
        rw [DotPerp_smul_right]
        exact mul_ne_zero hc hQ
      have hQN1 : DotPerp (Normalize (line1.origin - line0.origin))
          (c • line1.direction) ≠ 0 := by
        rw [DotPerp_smul_right]
        exact mul_ne_zero hc hQN
      rw [TIQuery_of_parallel_distinct line0 ⟨line1.origin, c • line1.direction⟩ hD1 hQN1,
        TIQuery_of_parallel_distinct ⟨line0.origin, c • line0.direction⟩ line1 hD0 hQN,
        TIQuery_of_parallel_distinct line0 line1 hD hQN,
        FIQuery_of_parallel_distinct maxT line0 ⟨line1.origin, c • line1.direction⟩ hD1 hQ1,
        FIQuery_of_parallel_distinct maxT ⟨line0.origin, c • line0.direction⟩ line1 hD0 hQ,
        FIQuery_of_parallel_distinct maxT line0 line1 hD hQ]
      exact ⟨rfl, rfl, ⟨rfl, rfl⟩, ⟨rfl, rfl⟩, fun hne => absurd hD hne⟩
  · have hD1 : DotPerp line0.direction (c • line1.direction) ≠ 0 := by
      rw [DotPerp_smul_right]
      exact mul_ne_zero hc hD
    have hD0 : DotPerp (c • line0.direction) line1.direction ≠ 0 := by
      rw [DotPerp_smul_left]
      exact mul_ne_zero hc hD
    have hexp := hD
    simp only [DotPerp] at hexp
    rw [TIQuery_of_not_parallel line0 ⟨line1.origin, c • line1.direction⟩ hD1,
      TIQuery_of_not_parallel ⟨line0.origin, c • line0.direction⟩ line1 hD0,
      TIQuery_of_not_parallel line0 line1 hD,
      FIQuery_of_not_parallel maxT line0 ⟨line1.origin, c • line1.direction⟩ hD1,
      FIQuery_of_not_parallel maxT ⟨line0.origin, c • line0.direction⟩ line1 hD0,
      FIQuery_of_not_parallel maxT line0 line1 hD]
    refine ⟨rfl, rfl, ⟨rfl, rfl⟩, ⟨rfl, rfl⟩, fun _ => ⟨⟨?_, ?_⟩, ⟨?_, ?_⟩⟩⟩
    · dsimp only
      rw [DotPerp_smul_right, DotPerp_smul_right, mul_div_mul_left _ _ hc]
    · dsimp only
      rw [DotPerp_smul_right, div_div, mul_comm c]
    · dsimp only
      rw [DotPerp_smul_left, mul_comm c, ← div_div,
        div_smul_smul_cancel c hc]
    · dsimp only
      rw [DotPerp_smul_left, div_div, mul_comm c]

/-- Witness for C7 at spec scenario A with scale factor `2`. -/
theorem claim7_witness :
    (2 : ℝ) ≠ 0 ∧
    (TIQuery lineA ⟨lineB.origin, (2 : ℝ) • lineB.direction⟩ = TIQuery lineA lineB ∧
    TIQuery ⟨lineA.origin, (2 : ℝ) • lineA.direction⟩ lineB = TIQuery lineA lineB ∧
    ((FIQuery 9 lineA ⟨lineB.origin, (2 : ℝ) • lineB.direction⟩).intersect =
        (FIQuery 9 lineA lineB).intersect ∧
      (FIQuery 9 lineA ⟨lineB.origin, (2 : ℝ) • lineB.direction⟩).numIntersections =
        (FIQuery 9 lineA lineB).numIntersections) ∧
    ((FIQuery 9 ⟨lineA.origin, (2 : ℝ) • lineA.direction⟩ lineB).intersect =
        (FIQuery 9 lineA lineB).intersect ∧
      (FIQuery 9 ⟨lineA.origin, (2 : ℝ) • lineA.direction⟩ lineB).numIntersections =
        (FIQuery 9 lineA lineB).numIntersections) ∧
    (DotPerp lineA.direction lineB.direction ≠ 0 →
      ((FIQuery 9 lineA ⟨lineB.origin, (2 : ℝ) • lineB.direction⟩).point =
          (FIQuery 9 lineA lineB).point ∧
        (FIQuery 9 lineA ⟨lineB.origin, (2 : ℝ) • lineB.direction⟩).line1Parameter =
          ((FIQuery 9 lineA lineB).line1Parameter.1 / 2,
            (FIQuery 9 lineA lineB).line1Parameter.2 / 2)) ∧
      ((FIQuery 9 ⟨lineA.origin, (2 : ℝ) • lineA.direction⟩ lineB).point =
          (FIQuery 9 lineA lineB).point ∧
        (FIQuery 9 ⟨lineA.origin, (2 : ℝ) • lineA.direction⟩ lineB).line0Parameter =
          ((FIQuery 9 lineA lineB).line0Parameter.1 / 2,
            (FIQuery 9 lineA lineB).line0Parameter.2 / 2)))) :=
  ⟨by norm_num, claim7_direction_scaling 9 2 lineA lineB (by norm_num)⟩

end GTE
